import Mathlib

/-!
Verification model of the `node-windows-audio-manager` native addon
(`src/native/src/addon.cpp`, `src/native/src/AudioSwitcher/AudioSwitcher.cpp`,
`src/native/src/Utility/DeviceUtils.cpp`).

Shallow embedding conventions:
* A Windows wide string (`std::wstring`, 16-bit code units) is a `List Nat`
  with every element `< 2 ^ 16`.
* A UTF-8 byte string (`std::string`) is a `List Nat` with elements `< 2 ^ 8`.
* Platform COM calls (CoCreateInstance, EnumAudioEndpoints, GetCount,
  SetDefaultEndpoint, GetDevice, Activate, SetMute, ...) are modelled by
  environment records carrying, for each call site, whether the HRESULT
  succeeds and what data the call returns.  The code under verification is
  deterministic given those outcomes.
* Functions that can throw C++ exceptions are embedded with `Except String`;
  the N-API boundary is embedded with `NapiOutcome`, distinguishing a
  returned JavaScript value from a synchronously thrown error together with
  its error kind (`Napi::TypeError` vs plain `Napi::Error`).
* Where an operation has observable platform side effects
  (`SetDefaultEndpoint`, `SetMute`), the embedding also returns the list of
  such calls actually issued, in program order, so that claims about
  "no state change" and "all three calls are issued" are statable.
-/

namespace AudioAddon

/-! ## String conversion (`addon.cpp` lines 30-45, 71-80, 316, 414)

`WStringToUtf8` wraps `WideCharToMultiByte(CP_UTF8, ...)`.  We model it as
the standard UTF-8 encoding applied to each 16-bit code unit independently
(1 byte below 0x80, 2 bytes below 0x800, 3 bytes otherwise); this is exactly
`WideCharToMultiByte` for BMP non-surrogate units, which covers every string
the addon converts (endpoint ids and friendly names).

`SetDefaultDevice` and `MuteDeviceById` do NOT use the inverse conversion
`Utf8ToWString`; they build the wide string with
`std::wstring(idUtf8.begin(), idUtf8.end())`, converting each byte of the
UTF-8 string to a 16-bit unit individually.  `char` is signed on MSVC, so a
byte `b ≥ 0x80` reads as `b - 256` and converts to the 16-bit unit
`b + 0xFF00` (mod 2^16).  `bytewiseWiden` embeds that constructor. -/

/-- UTF-8 encoding of one 16-bit code unit (the per-unit behaviour of
`WideCharToMultiByte(CP_UTF8, ...)` used by `WStringToUtf8`). -/
def utf8EncodeUnit (u : Nat) : List Nat :=
  if u < 128 then [u]
  else if u < 2048 then [192 + u / 64, 128 + u % 64]
  else [224 + u / 4096, 128 + u / 64 % 64, 128 + u % 64]

/-- Embedding of `WStringToUtf8` (`addon.cpp` lines 30-45): UTF-8 encoding
of a wide string, unit by unit. -/
def WStringToUtf8 : List Nat → List Nat
  | [] => []
  | u :: us => utf8EncodeUnit u ++ WStringToUtf8 us

/-- Embedding of `std::wstring deviceId(idUtf8.begin(), idUtf8.end())`
(`addon.cpp` lines 316 and 414): each byte of the UTF-8 string becomes one
16-bit unit, with sign extension for bytes ≥ 0x80 (MSVC `char` is signed). -/
def bytewiseWiden (bytes : List Nat) : List Nat :=
  bytes.map fun b => if b < 128 then b else 65280 + b

/-- Decoder for the per-unit UTF-8 encoding; used to prove `WStringToUtf8`
injective on wide strings. -/
def utf8Decode : List Nat → List Nat
  | [] => []
  | [b] => if b < 128 then [b] else []
  | [b, b2] =>
      if b < 128 then b :: utf8Decode [b2]
      else if b < 224 then [(b - 192) * 64 + (b2 - 128)]
      else []
  | b :: b2 :: b3 :: rest =>
      if b < 128 then b :: utf8Decode (b2 :: b3 :: rest)
      else if b < 224 then ((b - 192) * 64 + (b2 - 128)) :: utf8Decode (b3 :: rest)
      else ((b - 224) * 4096 + (b2 - 128) * 64 + (b3 - 128)) :: utf8Decode rest

/-- A wide string is well formed when every code unit fits in 16 bits. -/
def WideOk (w : List Nat) : Prop := ∀ u ∈ w, u < 65536

/-! ## Device enumeration (`AudioSwitcher.cpp` lines 20-124)

`AudioManager::listOutputDevices` enumerates the active render endpoints.
The platform side is modelled by `EnumEnv`: the three whole-collection
calls (enumerator creation, `EnumAudioEndpoints`, `GetCount`) each either
succeed or fail, and the collection itself is a list of `EnumDevice`, one
per index, recording for each per-device call (`Item`, `GetId`,
`OpenPropertyStore`, `GetValue` of the friendly name) whether it succeeds
and what data it yields. -/

/-- One slot of the `IMMDeviceCollection`, with the outcome of each
per-device platform call issued by the enumeration loop. -/
structure EnumDevice where
  itemOk : Bool      -- `pDevices->Item(i, &pDevice)`
  idOk : Bool        -- `pDevice->GetId(&deviceId)`
  storeOk : Bool     -- `pDevice->OpenPropertyStore(STGM_READ, &pStore)`
  nameOk : Bool      -- `pStore->GetValue(PKEY_Device_FriendlyName, &prop)`
  id : List Nat      -- wide-string endpoint id
  name : List Nat    -- wide-string friendly name
  deriving Repr, DecidableEq

/-- Platform outcomes for one run of `listOutputDevices`. -/
structure EnumEnv where
  enumeratorOk : Bool   -- `CoCreateInstance(MMDeviceEnumerator, ...)`
  endpointsOk : Bool    -- `EnumAudioEndpoints(eRender, DEVICE_STATE_ACTIVE, ...)`
  countOk : Bool        -- `pDevices->GetCount(&count)`
  devices : List EnumDevice
  deriving Repr

/-- Embedding of `struct AudioDevice` (wide id and friendly name; the live
`IMMDevice*` handle carries no further observable data in our model). -/
structure AudioDevice where
  id : List Nat
  name : List Nat
  deriving Repr, DecidableEq

/-- The enumeration loop of `listOutputDevices` (`AudioSwitcher.cpp` lines
52-104): each `continue` on a failed per-device call skips that slot,
a fully successful slot is pushed onto the result. -/
def enumLoop : List EnumDevice → List AudioDevice
  | [] => []
  | d :: rest =>
    if !d.itemOk then enumLoop rest
    else if !d.idOk then enumLoop rest
    else if !d.storeOk then enumLoop rest
    else if d.nameOk then { id := d.id, name := d.name } :: enumLoop rest
    else enumLoop rest

/-- Embedding of `AudioManager::listOutputDevices` (`AudioSwitcher.cpp`
lines 20-124).  Whole-collection failures and a zero count throw
`std::runtime_error` (the `catch` block rethrows the same message). -/
def listOutputDevices (env : EnumEnv) : Except String (List AudioDevice) :=
  if !env.enumeratorOk then .error "[x] Failed to create device enumerator."
  else if !env.endpointsOk then .error "[x] Failed to enumerate audio endpoints."
  else if !env.countOk then .error "[x] Failed to retrieve device count."
  else if env.devices.length = 0 then .error "[x] No output devices found."
  else .ok (enumLoop env.devices)

/-! ## Default switching (`AudioSwitcher.cpp` lines 139-180) -/

/-- The three endpoint roles passed to `SetDefaultEndpoint`. -/
inductive ERole where
  | eConsole
  | eMultimedia
  | eCommunications
  deriving Repr, DecidableEq

/-- Platform outcomes for `setDefaultOutputDevice`: whether the
`IPolicyConfig` CoCreateInstance succeeds, and the HRESULT success of
`SetDefaultEndpoint` for a given device id and role. -/
structure PolicyEnv where
  policyCreateOk : Bool
  setEndpointOk : List Nat → ERole → Bool

/-- Embedding of `AudioManager::setDefaultOutputDevice` (`AudioSwitcher.cpp`
lines 139-180).  Returns the boolean result together with the list of
`SetDefaultEndpoint` calls issued, in program order.  Note that on policy
object creation failure the function throws internally but catches its own
exception (lines 171-179) and returns `false`; no exception escapes. -/
def setDefaultOutputDevice (env : PolicyEnv) (deviceId : List Nat) :
    Bool × List (List Nat × ERole) :=
  if !env.policyCreateOk then
    (false, [])
  else
    let hr1 := env.setEndpointOk deviceId .eConsole
    let hr2 := env.setEndpointOk deviceId .eMultimedia
    let hr3 := env.setEndpointOk deviceId .eCommunications
    (hr1 && hr2 && hr3,
     [(deviceId, .eConsole), (deviceId, .eMultimedia), (deviceId, .eCommunications)])

/-! ## Default-device resolution (`DeviceUtils.cpp` lines 119-158) -/

/-- Platform outcomes for `GetDefaultAudioPlaybackDevice` and the
subsequent `GetId` read performed by `ListDevices` (`addon.cpp` lines
132-144). -/
structure DefaultEnv where
  enumeratorOk : Bool    -- `CoCreateInstance(MMDeviceEnumerator, ...)`
  getDefaultOk : Bool    -- `GetDefaultAudioEndpoint(eRender, eConsole, ...)`
  getIdOk : Bool         -- `defaultDevice->GetId(&buffer)` in `ListDevices`
  defaultId : List Nat   -- wide id of the default endpoint
  deriving Repr

/-- Embedding of `Utility::GetDefaultAudioPlaybackDevice` (`DeviceUtils.cpp`
lines 119-158): `true` iff a non-null device pointer is returned. -/
def GetDefaultAudioPlaybackDevice (env : DefaultEnv) : Bool :=
  env.enumeratorOk && env.getDefaultOk

/-! ## Mute primitives (`DeviceUtils.cpp` lines 178-267) -/

/-- A resolved `IMMDevice` handle for the mute path: its wide id, and the
outcomes of `Activate(IAudioEndpointVolume)` and `SetMute`. -/
structure DeviceHandle where
  id : List Nat
  activateOk : Bool
  setMuteOk : Bool
  deriving Repr, DecidableEq

/-- Embedding of `Utility::MuteDevice` (`DeviceUtils.cpp` lines 233-267).
Returns the boolean result and the `SetMute` calls issued (device id and
requested flag). -/
def MuteDevice (dev : DeviceHandle) (mute : Bool) :
    Bool × List (List Nat × Bool) :=
  if !dev.activateOk then (false, [])
  else (dev.setMuteOk, [(dev.id, mute)])

/-! ## The N-API boundary (`addon.cpp`)

JavaScript argument lists are modelled by `List JsVal`; a JS string is
represented by the UTF-8 byte list that `Napi::String::Utf8Value` yields.
A thrown `Napi::TypeError` and a thrown plain `Napi::Error` are the two
error kinds observable at this boundary. -/

/-- A JavaScript value as seen through the N-API argument checks. -/
inductive JsVal where
  | str : List Nat → JsVal
  | boolean : Bool → JsVal
  | num : Int → JsVal
  | other : JsVal
  deriving Repr, DecidableEq

/-- Which N-API error class a thrown error was constructed from. -/
inductive ErrKind where
  | typeError     -- `Napi::TypeError`
  | genericError  -- `Napi::Error`
  deriving Repr, DecidableEq

/-- Result of an addon call: a returned value, or a synchronously thrown
error of a given kind with its message. -/
inductive NapiOutcome (α : Type) where
  | value : α → NapiOutcome α
  | thrown : ErrKind → String → NapiOutcome α
  deriving Repr, DecidableEq

/-- One element of the array returned by `listDevices`
(`{name, id, isDefault}`); strings are UTF-8 byte lists. -/
structure JsDevice where
  name : List Nat
  id : List Nat
  isDefault : Bool
  deriving Repr, DecidableEq

/-- Platform outcomes for one `ListDevices` call. -/
structure ListEnv where
  comInitOk : Bool      -- `CoInitializeEx` inside `COMInitializer`
  defEnv : DefaultEnv
  enumEnv : EnumEnv
  deriving Repr

/-- Embedding of `ListDevices` (`addon.cpp` lines 121-179).  The default id
is resolved first (empty wide string if resolution or the `GetId` read
fails), then the device list is built and each record's `isDefault` is set
by comparing UTF-8 ids.  `COMInitializer` failure and `listOutputDevices`
failures are caught by `catch (const std::exception &)` and rethrown as
`Napi::TypeError`. -/
def ListDevices (env : ListEnv) : NapiOutcome (List JsDevice) :=
  if !env.comInitOk then .thrown .typeError "Failed to initialize COM."
  else
    let defaultIdW :=
      if GetDefaultAudioPlaybackDevice env.defEnv && env.defEnv.getIdOk
      then env.defEnv.defaultId else []
    let defaultIdUtf8 := WStringToUtf8 defaultIdW
    match listOutputDevices env.enumEnv with
    | .error msg => .thrown .typeError msg
    | .ok devices =>
        .value (devices.map fun d =>
          { name := WStringToUtf8 d.name
            id := WStringToUtf8 d.id
            isDefault := WStringToUtf8 d.id == defaultIdUtf8 })

/-- Platform outcomes for one `SetDefaultDevice` call. -/
structure SetDefaultEnv where
  comInitOk : Bool
  enumEnv : EnumEnv
  policyEnv : PolicyEnv

/-- Embedding of `SetDefaultDevice` (`addon.cpp` lines 402-443), with the
trace of `SetDefaultEndpoint` calls issued.  Argument validation
(`info.Length() < 1 || !info[0].IsString()`) throws `Napi::TypeError`; the
incoming UTF-8 id is widened byte by byte; the device list is re-enumerated
and membership checked before the switch is attempted. -/
def SetDefaultDevice (env : SetDefaultEnv) (args : List JsVal) :
    NapiOutcome Bool × List (List Nat × ERole) :=
  match args with
  | .str deviceIdUtf8 :: _ =>
      let deviceIdW := bytewiseWiden deviceIdUtf8
      if !env.comInitOk then (.thrown .typeError "Failed to initialize COM.", [])
      else
        match listOutputDevices env.enumEnv with
        | .error msg => (.thrown .typeError msg, [])
        | .ok devices =>
            if devices.any fun dev => dev.id == deviceIdW then
              let r := setDefaultOutputDevice env.policyEnv deviceIdW
              (.value r.1, r.2)
            else
              (.value false, [])
  | _ => (.thrown .typeError "Device ID string expected", [])

/-- Platform outcomes for one `SetDefaultPlaybackMute` call. -/
structure DefMuteEnv where
  comInitOk : Bool
  defEnv : DefaultEnv
  activateOk : Bool   -- `Activate(IAudioEndpointVolume, ...)`
  setMuteOk : Bool    -- `SetMute(...)`
  deriving Repr

/-- Embedding of `Utility::SetDefaultPlaybackDeviceMute` (`DeviceUtils.cpp`
lines 178-204). -/
def SetDefaultPlaybackDeviceMute (env : DefMuteEnv) (mute : Bool) : Bool :=
  if !GetDefaultAudioPlaybackDevice env.defEnv then false
  else if !env.activateOk then false
  else env.setMuteOk

/-- Embedding of `SetDefaultPlaybackMute` (`addon.cpp` lines 218-249).
Argument validation (`info.Length() != 1 || !info[0].IsBoolean()`) throws
`Napi::TypeError`; failures inside the `try` block are caught by
`catch (...)` and rethrown as a plain `Napi::Error`. -/
def SetDefaultPlaybackMute (env : DefMuteEnv) (args : List JsVal) :
    NapiOutcome Bool :=
  match args with
  | [.boolean mute] =>
      if !env.comInitOk then
        .thrown .genericError "Failed to set mute state for default playback device"
      else .value (SetDefaultPlaybackDeviceMute env mute)
  | _ => .thrown .typeError "Expected one boolean argument (true=mute, false=unmute)"

/-- Platform outcomes for one `MuteDeviceById` call: whether COM
initialization and enumerator creation succeed, and the
`IMMDeviceEnumerator::GetDevice` lookup from wide ids to device handles
(`none` when the lookup fails, i.e. unknown or disconnected id). -/
structure MuteEnv where
  comInitOk : Bool
  enumeratorOk : Bool
  getDevice : List Nat → Option DeviceHandle

/-- Embedding of `MuteDeviceById` (`addon.cpp` lines 299-362), with the
trace of `SetMute` calls issued.  Argument validation
(`info.Length() != 2 || !info[0].IsString() || !info[1].IsBoolean()`)
throws `Napi::TypeError`; the incoming UTF-8 id is widened byte by byte;
COM or other failures inside the `try` block are caught by `catch (...)`
and rethrown as a plain `Napi::Error`. -/
def MuteDeviceById (env : MuteEnv) (args : List JsVal) :
    NapiOutcome Bool × List (List Nat × Bool) :=
  match args with
  | [.str idUtf8, .boolean mute] =>
      let deviceId := bytewiseWiden idUtf8
      if !env.comInitOk then
        (.thrown .genericError "Failed to mute device - system error occurred", [])
      else if !env.enumeratorOk then (.value false, [])
      else
        match env.getDevice deviceId with
        | none => (.value false, [])
        | some dev =>
            let r := MuteDevice dev mute
            (.value r.1, r.2)
  | _ => (.thrown .typeError "Expected arguments: (string deviceId, boolean mute)", [])

/-- The per-device outcome of one slot of the enumeration loop in
`listOutputDevices`: `some` record exactly when all four per-device calls
succeed, `none` (slot skipped) otherwise. -/
def perDeviceRecord (d : EnumDevice) : Option AudioDevice :=
  if d.itemOk && d.idOk && d.storeOk && d.nameOk then
    some { id := d.id, name := d.name }
  else none

/-- The record `ListDevices` builds for one enumerated device, given the
UTF-8 form of the default id it compares against. -/
def mkJsDevice (defaultIdUtf8 : List Nat) (d : AudioDevice) : JsDevice :=
  { name := WStringToUtf8 d.name
    id := WStringToUtf8 d.id
    isDefault := WStringToUtf8 d.id == defaultIdUtf8 }


/-! ## Conversion lemmas -/

theorem utf8Decode_encodeUnit_append (u : Nat) (hu : u < 65536) (bs : List Nat) :
    utf8Decode (utf8EncodeUnit u ++ bs) = u :: utf8Decode bs := by
  unfold utf8EncodeUnit
  by_cases h1 : u < 128
  · match bs with
    | [] => simp [h1, utf8Decode]
    | [c] => simp [h1, utf8Decode]
    | c :: c2 :: cs => simp [h1, utf8Decode]
  · by_cases h2 : u < 2048
    · have hb : ¬ (192 + u / 64 < 128) := by omega
      have hb2 : 192 + u / 64 < 224 := by
        have : u / 64 < 32 := by omega
        omega
      have hval : (192 + u / 64 - 192) * 64 + (128 + u % 64 - 128) = u := by omega
      match bs with
      | [] => simp [h1, h2, utf8Decode, hb, hb2] <;> omega
      | c :: cs => simp [h1, h2, utf8Decode, hb, hb2] <;> omega
    · have hb : ¬ (224 + u / 4096 < 128) := by omega
      have hb2 : ¬ (224 + u / 4096 < 224) := by omega
      simp [h1, h2, utf8Decode, hb, hb2] <;> omega

theorem utf8Decode_WStringToUtf8 (w : List Nat) (hw : WideOk w) :
    utf8Decode (WStringToUtf8 w) = w := by
  induction w with
  | nil => rfl
  | cons u us ih =>
      have hu : u < 65536 := hw u (List.mem_cons_self u us)
      have hus : WideOk us := fun v hv => hw v (List.mem_cons_of_mem u hv)
      rw [WStringToUtf8, utf8Decode_encodeUnit_append u hu, ih hus]

theorem WStringToUtf8_injOn {v w : List Nat} (hv : WideOk v) (hw : WideOk w)
    (h : WStringToUtf8 v = WStringToUtf8 w) : v = w := by
  have := utf8Decode_WStringToUtf8 v hv
  rw [h, utf8Decode_WStringToUtf8 w hw] at this
  exact this.symm

theorem utf8EncodeUnit_length_pos (u : Nat) : 0 < (utf8EncodeUnit u).length := by
  unfold utf8EncodeUnit
  by_cases h1 : u < 128 <;> by_cases h2 : u < 2048 <;> simp [h1, h2]

theorem utf8EncodeUnit_length_eq_one_iff (u : Nat) :
    (utf8EncodeUnit u).length = 1 ↔ u < 128 := by
  unfold utf8EncodeUnit
  by_cases h1 : u < 128 <;> by_cases h2 : u < 2048 <;> simp [h1, h2]

theorem WStringToUtf8_length_ge (w : List Nat) :
    w.length ≤ (WStringToUtf8 w).length := by
  induction w with
  | nil => simp [WStringToUtf8]
  | cons u us ih =>
      rw [WStringToUtf8]
      simp only [List.length_append, List.length_cons]
      have := utf8EncodeUnit_length_pos u
      omega

theorem WStringToUtf8_length_eq_iff (w : List Nat) :
    (WStringToUtf8 w).length = w.length ↔ ∀ u ∈ w, u < 128 := by
  induction w with
  | nil => simp [WStringToUtf8]
  | cons u us ih =>
      rw [WStringToUtf8]
      simp only [List.length_append, List.length_cons]
      have h1 := utf8EncodeUnit_length_pos u
      have h2 := WStringToUtf8_length_ge us
      constructor
      · intro h
        have hlen1 : (utf8EncodeUnit u).length = 1 := by omega
        have hu : u < 128 := (utf8EncodeUnit_length_eq_one_iff u).mp hlen1
        have : (WStringToUtf8 us).length = us.length := by omega
        intro v hv
        rcases List.mem_cons.mp hv with rfl | hv'
        · exact hu
        · exact (ih.mp this) v hv'
      · intro h
        have hu : u < 128 := h u (List.mem_cons_self u us)
        have hlen1 : (utf8EncodeUnit u).length = 1 :=
          (utf8EncodeUnit_length_eq_one_iff u).mpr hu
        have : (WStringToUtf8 us).length = us.length :=
          ih.mpr fun v hv => h v (List.mem_cons_of_mem u hv)
        omega

theorem WStringToUtf8_eq_nil_iff (w : List Nat) :
    WStringToUtf8 w = [] ↔ w = [] := by
  constructor
  · intro h
    cases w with
    | nil => rfl
    | cons u us =>
        exfalso
        have hlen := congrArg List.length h
        rw [WStringToUtf8] at hlen
        simp only [List.length_append, List.length_nil] at hlen
        have hp := utf8EncodeUnit_length_pos u
        omega
  · intro h
    rw [h]
    rfl

theorem WStringToUtf8_of_ascii (w : List Nat) (h : ∀ u ∈ w, u < 128) :
    WStringToUtf8 w = w := by
  induction w with
  | nil => rfl
  | cons u us ih =>
      have hu : u < 128 := h u (List.mem_cons_self u us)
      rw [WStringToUtf8, utf8EncodeUnit, if_pos hu,
        ih fun v hv => h v (List.mem_cons_of_mem u hv)]
      rfl

theorem bytewiseWiden_of_ascii (s : List Nat) (h : ∀ b ∈ s, b < 128) :
    bytewiseWiden s = s := by
  induction s with
  | nil => rfl
  | cons b bs ih =>
      have hb : b < 128 := h b (List.mem_cons_self b bs)
      simp only [bytewiseWiden, List.map_cons, if_pos hb]
      rw [show List.map (fun b => if b < 128 then b else 65280 + b) bs = bytewiseWiden bs from rfl,
        ih fun v hv => h v (List.mem_cons_of_mem b hv)]

/-! ## Enumeration-loop lemmas -/

theorem enumLoop_eq_filterMap (ds : List EnumDevice) :
    enumLoop ds = ds.filterMap perDeviceRecord := by
  induction ds with
  | nil => rfl
  | cons d rest ih =>
      rw [enumLoop, List.filterMap_cons]
      cases h1 : d.itemOk <;> cases h2 : d.idOk <;> cases h3 : d.storeOk <;>
        cases h4 : d.nameOk <;>
        simp [perDeviceRecord, h1, h2, h3, h4, ih]

theorem mem_enumLoop {a : AudioDevice} {ds : List EnumDevice}
    (h : a ∈ enumLoop ds) : ∃ d ∈ ds, a.id = d.id ∧ a.name = d.name := by
  rw [enumLoop_eq_filterMap] at h
  rcases List.mem_filterMap.mp h with ⟨d, hd, hrec⟩
  refine ⟨d, hd, ?_⟩
  unfold perDeviceRecord at hrec
  split at hrec
  · cases hrec
    exact ⟨rfl, rfl⟩
  · cases hrec

theorem listOutputDevices_ok_inv {env : EnumEnv} {l : List AudioDevice}
    (h : listOutputDevices env = .ok l) :
    env.enumeratorOk = true ∧ env.endpointsOk = true ∧ env.countOk = true ∧
      env.devices ≠ [] ∧ l = enumLoop env.devices := by
  by_cases h1 : env.enumeratorOk
  · by_cases h2 : env.endpointsOk
    · by_cases h3 : env.countOk
      · by_cases h4 : env.devices.length = 0
        · simp [listOutputDevices, h1, h2, h3, h4] at h
        · have hne : env.devices ≠ [] := by
            intro hh
            rw [hh] at h4
            simp at h4
          simp [listOutputDevices, h1, h2, h3, h4] at h
          exact ⟨h1, h2, h3, hne, h.symm⟩
      · simp [listOutputDevices, h1, h2, h3] at h
    · simp [listOutputDevices, h1, h2] at h
  · simp [listOutputDevices, h1] at h

theorem ListDevices_value_inv {env : ListEnv} {recs : List JsDevice}
    (h : ListDevices env = .value recs) :
    env.comInitOk = true ∧
      ∃ devices, listOutputDevices env.enumEnv = .ok devices ∧
        recs = devices.map (mkJsDevice (WStringToUtf8
          (if GetDefaultAudioPlaybackDevice env.defEnv && env.defEnv.getIdOk
           then env.defEnv.defaultId else []))) := by
  unfold ListDevices at h
  cases hc : env.comInitOk
  · rw [hc] at h; simp at h
  · rw [hc] at h
    simp only [Bool.not_true, Bool.false_eq_true, if_false] at h
    cases henum : listOutputDevices env.enumEnv with
    | error msg => rw [henum] at h; simp at h
    | ok devices =>
        rw [henum] at h
        simp only [NapiOutcome.value.injEq] at h
        exact ⟨rfl, devices, rfl, by rw [← h]; rfl⟩

theorem enumLoop_default_le_one (c : List Nat) (ds : List EnumDevice)
    (hw : ∀ d ∈ ds, WideOk d.id)
    (hd : ds.Pairwise fun a b => a.id ≠ b.id) :
    (((enumLoop ds).map (mkJsDevice c)).filter (fun r => r.isDefault)).length ≤ 1 := by
  rw [enumLoop_eq_filterMap]
  induction ds with
  | nil => simp
  | cons d rest ih =>
      have hwrest : ∀ e ∈ rest, WideOk e.id :=
        fun e he => hw e (List.mem_cons_of_mem d he)
      have hdrest : rest.Pairwise fun a b => a.id ≠ b.id :=
        (List.pairwise_cons.mp hd).2
      have hhead : ∀ e ∈ rest, d.id ≠ e.id := (List.pairwise_cons.mp hd).1
      have ihr := ih hwrest hdrest
      rw [List.filterMap_cons]
      cases hrec : perDeviceRecord d with
      | none => exact ihr
      | some a =>
          have haid : a.id = d.id := by
            unfold perDeviceRecord at hrec
            split at hrec
            · cases hrec; rfl
            · cases hrec
          rw [List.map_cons, List.filter_cons]
          cases hmatch : (mkJsDevice c a).isDefault
          · simpa [hmatch] using ihr
          · -- the head record matches the default id; no later record can match
            have hcid : WStringToUtf8 a.id = c := by
              have hb : (WStringToUtf8 a.id == c) = true := hmatch
              exact eq_of_beq hb
            have hnil : ((rest.filterMap perDeviceRecord).map
                (mkJsDevice c)).filter (fun r => r.isDefault) = [] := by
              rw [List.filter_eq_nil_iff]
              intro r hr
              rcases List.mem_map.mp hr with ⟨b, hb, rfl⟩
              rcases List.mem_filterMap.mp hb with ⟨e, he, hrece⟩
              have hbid : b.id = e.id := by
                unfold perDeviceRecord at hrece
                split at hrece
                · cases hrece; rfl
                · cases hrece
              simp only [mkJsDevice]
              intro hcontra
              have heq : WStringToUtf8 b.id = c := eq_of_beq hcontra
              rw [hbid] at heq
              have heid : e.id = d.id := by
                have := WStringToUtf8_injOn (hwrest e he)
                  (hw d (List.mem_cons_self d rest))
                  (heq.trans (by rw [← hcid, haid]))
                exact this
              exact hhead e he heid.symm
            simp [hmatch, hnil]

/-! ## Claim theorems -/

/-- C2: for every deviceId, once the policy object is created,
`setDefaultOutputDevice` returns `true` iff all three per-role
`SetDefaultEndpoint` calls (console, multimedia, communications) succeed,
and all three calls are issued unconditionally and in order — even when an
earlier one fails — so a `false` result may leave a subset of roles
reassigned: the operation is not transactional and performs no rollback. -/
theorem setDefault_true_iff_all_roles (env : PolicyEnv) (deviceId : List Nat)
    (hpol : env.policyCreateOk = true) :
    ((setDefaultOutputDevice env deviceId).1 = true ↔
       env.setEndpointOk deviceId .eConsole = true ∧
       env.setEndpointOk deviceId .eMultimedia = true ∧
       env.setEndpointOk deviceId .eCommunications = true) ∧
    (setDefaultOutputDevice env deviceId).2 =
      [(deviceId, .eConsole), (deviceId, .eMultimedia),
       (deviceId, .eCommunications)] := by
  constructor
  · simp [setDefaultOutputDevice, hpol, Bool.and_eq_true, and_assoc]
  · simp [setDefaultOutputDevice, hpol]

/-- Witness for C2 at a concrete environment: with every role call
succeeding the result is `true` and the three calls were issued. -/
theorem setDefault_true_iff_all_roles_witness :
    (setDefaultOutputDevice
      { policyCreateOk := true, setEndpointOk := fun _ _ => true } [65]).1 = true ∧
    (setDefaultOutputDevice
      { policyCreateOk := true, setEndpointOk := fun _ _ => true } [65]).2 =
      [([65], .eConsole), ([65], .eMultimedia), ([65], .eCommunications)] :=
  ⟨(setDefault_true_iff_all_roles _ [65] rfl).1.mpr ⟨rfl, rfl, rfl⟩,
   (setDefault_true_iff_all_roles _ [65] rfl).2⟩

/-- C3: for every deviceId string (the empty string included) whose widened
form matches no id in the fresh enumeration performed by `SetDefaultDevice`,
the operation returns `false` without issuing any `SetDefaultEndpoint` call
and without raising an error. -/
theorem setDefaultDevice_unknown_id_false (env : SetDefaultEnv)
    (idUtf8 : List Nat) (rest : List JsVal) (devices : List AudioDevice)
    (hcom : env.comInitOk = true)
    (henum : listOutputDevices env.enumEnv = .ok devices)
    (hnomatch : ∀ d ∈ devices, d.id ≠ bytewiseWiden idUtf8) :
    SetDefaultDevice env (JsVal.str idUtf8 :: rest) =
      (.value false, []) := by
  have hany : (devices.any fun dev => dev.id == bytewiseWiden idUtf8) = false := by
    rw [List.any_eq_false]
    intro d hd
    simp only [beq_iff_eq]
    exact hnomatch d hd
  simp [SetDefaultDevice, hcom, henum, hany]

/-- Witness for C3: a one-device system, queried with the empty string and
with an unknown id; both return `false` with no switch attempted. -/
theorem setDefaultDevice_unknown_id_false_witness :
    SetDefaultDevice
      ⟨true, ⟨true, true, true, [⟨true, true, true, true, [66], [83]⟩]⟩,
       ⟨true, fun _ _ => true⟩⟩
      [JsVal.str []] = (.value false, []) ∧
    SetDefaultDevice
      ⟨true, ⟨true, true, true, [⟨true, true, true, true, [66], [83]⟩]⟩,
       ⟨true, fun _ _ => true⟩⟩
      [JsVal.str [67]] = (.value false, []) :=
  ⟨setDefaultDevice_unknown_id_false _ [] [] [⟨[66], [83]⟩]
      rfl rfl (by decide),
   setDefaultDevice_unknown_id_false _ [67] [] [⟨[66], [83]⟩]
      rfl rfl (by decide)⟩

/-- C5: `listOutputDevices` raises (throws `std::runtime_error`) when the
collection is obtained but its count reads zero devices, instead of
returning an empty sequence; enumerator-creation, endpoint-query and
count-read failures likewise raise. -/
theorem listOutputDevices_hard_failures (env : EnumEnv) :
    (env.enumeratorOk = true → env.endpointsOk = true → env.countOk = true →
       env.devices = [] →
       listOutputDevices env = .error "[x] No output devices found.") ∧
    (env.enumeratorOk = false →
       listOutputDevices env = .error "[x] Failed to create device enumerator.") ∧
    (env.enumeratorOk = true → env.endpointsOk = false →
       listOutputDevices env = .error "[x] Failed to enumerate audio endpoints.") ∧
    (env.enumeratorOk = true → env.endpointsOk = true → env.countOk = false →
       listOutputDevices env = .error "[x] Failed to retrieve device count.") := by
  refine ⟨?_, ?_, ?_, ?_⟩ <;> intros <;> simp [listOutputDevices, *]

/-- Witness for C5 at concrete environments: each failure mode produces the
corresponding error. -/
theorem listOutputDevices_hard_failures_witness :
    listOutputDevices ⟨true, true, true, []⟩ =
      .error "[x] No output devices found." ∧
    listOutputDevices ⟨false, true, true, []⟩ =
      .error "[x] Failed to create device enumerator." ∧
    listOutputDevices ⟨true, false, true, []⟩ =
      .error "[x] Failed to enumerate audio endpoints." ∧
    listOutputDevices ⟨true, true, false, []⟩ =
      .error "[x] Failed to retrieve device count." :=
  ⟨(listOutputDevices_hard_failures _).1 rfl rfl rfl rfl,
   (listOutputDevices_hard_failures _).2.1 rfl,
   (listOutputDevices_hard_failures _).2.2.1 rfl rfl,
   (listOutputDevices_hard_failures _).2.2.2 rfl rfl rfl⟩

/-- C6: when the whole-collection calls succeed and the collection is
non-empty, `listOutputDevices` returns exactly the devices whose four
per-device steps (resolution, id read, property-store open, friendly-name
read) all succeed, in enumeration order; every index with a failing
per-device step is skipped silently and the remaining devices are still
processed. -/
theorem listOutputDevices_skips_failing_slots (env : EnumEnv)
    (h1 : env.enumeratorOk = true) (h2 : env.endpointsOk = true)
    (h3 : env.countOk = true) (h4 : env.devices ≠ []) :
    listOutputDevices env = .ok (env.devices.filterMap perDeviceRecord) := by
  have hlen : ¬ env.devices.length = 0 := by
    cases hd : env.devices with
    | nil => exact absurd hd h4
    | cons a l => simp [hd]
  simp [listOutputDevices, h1, h2, h3, hlen, enumLoop_eq_filterMap]

/-- Witness for C6: a three-slot collection whose middle slot fails its id
read; the listing keeps the first and third devices, in order. -/
theorem listOutputDevices_skips_failing_slots_witness :
    listOutputDevices
      ⟨true, true, true,
        [⟨true, true, true, true, [65], [78]⟩,
         ⟨true, false, true, true, [66], [79]⟩,
         ⟨true, true, true, true, [67], [80]⟩]⟩ =
      .ok [⟨[65], [78]⟩, ⟨[67], [80]⟩] := by
  have h := listOutputDevices_skips_failing_slots
    ⟨true, true, true,
      [⟨true, true, true, true, [65], [78]⟩,
       ⟨true, false, true, true, [66], [79]⟩,
       ⟨true, true, true, true, [67], [80]⟩]⟩
    rfl rfl rfl (by decide)
  rw [h]
  rfl

/-- C9: for every deviceId whose widened form the platform lookup
(`GetDevice`) does not resolve, `MuteDeviceById` returns `false`, raises
nothing, and issues no `SetMute` call on any device. -/
theorem muteDeviceById_unknown_id (env : MuteEnv) (idUtf8 : List Nat)
    (mute : Bool) (hcom : env.comInitOk = true)
    (hlookup : env.getDevice (bytewiseWiden idUtf8) = none) :
    MuteDeviceById env [JsVal.str idUtf8, JsVal.boolean mute] =
      (.value false, []) := by
  cases he : env.enumeratorOk <;> simp [MuteDeviceById, hcom, he, hlookup]

/-- Witness for C9: a system that resolves no device id returns `false`
with no `SetMute` issued. -/
theorem muteDeviceById_unknown_id_witness :
    MuteDeviceById
      { comInitOk := true, enumeratorOk := true, getDevice := fun _ => none }
      [JsVal.str [90], JsVal.boolean true] = (.value false, []) :=
  muteDeviceById_unknown_id _ [90] true rfl rfl

/-- C1 counterexample: a concrete state in which the policy-configuration
object cannot be created (`policyCreateOk = false`) while COM
initialization and enumeration succeed and the requested id is present.
`SetDefaultDevice` returns the value `false` — it does not raise any
error — because `setDefaultOutputDevice` catches its own exception
(`AudioSwitcher.cpp` lines 171-179) and returns `false`.  This refutes the
claim that policy-object-creation failure is raised rather than reported
as a boolean `false` result. -/
theorem setDefaultDevice_policy_failure_not_raised :
    SetDefaultDevice
      ⟨true, ⟨true, true, true, [⟨true, true, true, true, [65], [83]⟩]⟩,
       ⟨false, fun _ _ => true⟩⟩
      [JsVal.str [65]] = (.value false, []) := by
  rfl

/-- C1 (amended): if the policy-configuration object cannot be created
during `SetDefaultDevice` (with COM initialized, enumeration successful
and the id present), the operation reports the failure as a boolean
`false` result — the internal exception is caught inside
`setDefaultOutputDevice` — and issues no `SetDefaultEndpoint` call; no
error of any kind is raised. -/
theorem setDefaultDevice_policy_failure_reports_false (env : SetDefaultEnv)
    (idUtf8 : List Nat) (rest : List JsVal) (devices : List AudioDevice)
    (hcom : env.comInitOk = true)
    (henum : listOutputDevices env.enumEnv = .ok devices)
    (hmem : (devices.any fun dev => dev.id == bytewiseWiden idUtf8) = true)
    (hpol : env.policyEnv.policyCreateOk = false) :
    SetDefaultDevice env (JsVal.str idUtf8 :: rest) = (.value false, []) := by
  simp [SetDefaultDevice, hcom, henum, hmem, setDefaultOutputDevice, hpol]

/-- Witness for the amended C1 at a concrete state. -/
theorem setDefaultDevice_policy_failure_reports_false_witness :
    SetDefaultDevice
      ⟨true, ⟨true, true, true, [⟨true, true, true, true, [66], [83]⟩]⟩,
       ⟨false, fun _ _ => false⟩⟩
      [JsVal.str [66]] = (.value false, []) :=
  setDefaultDevice_policy_failure_reports_false _ [66] [] [⟨[66], [83]⟩]
    rfl rfl (by decide) rfl

/-- C10: the id conversion at the binding boundary is asymmetric:
`ListDevices` emits ids through `WStringToUtf8` (true UTF-8 encoding),
while `SetDefaultDevice` and `MuteDeviceById` rebuild the wide id with
`bytewiseWiden` (each byte widened individually, no UTF-8 decoding).  The
round trip — an id emitted by `ListDevices` passed back in reaches the
platform unchanged — holds iff every code unit of the id is ASCII. -/
theorem widen_utf8_roundtrip_iff_ascii (w : List Nat) :
    bytewiseWiden (WStringToUtf8 w) = w ↔ ∀ u ∈ w, u < 128 := by
  constructor
  · intro h
    have hlen := congrArg List.length h
    rw [bytewiseWiden, List.length_map] at hlen
    exact (WStringToUtf8_length_eq_iff w).mp hlen
  · intro h
    rw [WStringToUtf8_of_ascii w h, bytewiseWiden_of_ascii w h]

/-- C7: every snapshot returned by `ListDevices` has at most one record
with `isDefault = true` — given the platform guarantee that enumerated
endpoint ids are pairwise-distinct 16-bit wide strings — and zero such
records is possible, e.g. when default resolution fails. -/
theorem listDevices_at_most_one_default (env : ListEnv)
    (recs : List JsDevice) (h : ListDevices env = .value recs)
    (hw : ∀ d ∈ env.enumEnv.devices, WideOk d.id)
    (hdist : env.enumEnv.devices.Pairwise fun a b => a.id ≠ b.id) :
    (recs.filter fun r => r.isDefault).length ≤ 1 ∧
    ∃ env2 recs2, ListDevices env2 = .value recs2 ∧
      GetDefaultAudioPlaybackDevice env2.defEnv = false ∧
      (recs2.filter fun r => r.isDefault) = [] := by
  constructor
  · rcases ListDevices_value_inv h with ⟨hcom, devices, henum, hrecs⟩
    rcases listOutputDevices_ok_inv henum with ⟨-, -, -, -, hdev⟩
    rw [hrecs, hdev]
    exact enumLoop_default_le_one _ _ hw hdist
  · refine ⟨⟨true, ⟨false, true, true, [66]⟩,
      ⟨true, true, true, [⟨true, true, true, true, [66], [78]⟩]⟩⟩,
      [⟨[78], [66], false⟩], by rfl, rfl, by rfl⟩

/-- Witness for C7 at a concrete state: one device which is the default. -/
theorem listDevices_at_most_one_default_witness :
    (([({ name := [78], id := [66], isDefault := true } : JsDevice)].filter
        fun r => r.isDefault)).length ≤ 1 ∧
    ∃ env2 recs2, ListDevices env2 = .value recs2 ∧
      GetDefaultAudioPlaybackDevice env2.defEnv = false ∧
      (recs2.filter fun r => r.isDefault) = [] :=
  listDevices_at_most_one_default
    ⟨true, ⟨true, true, true, [66]⟩,
     ⟨true, true, true, [⟨true, true, true, true, [66], [78]⟩]⟩⟩
    [⟨[78], [66], true⟩] (by rfl) (by simp only [WideOk]; decide) (by decide)

/-- C8: each record's `isDefault` is computed as exact, case-sensitive
string equality (no normalization) between the record's id and the UTF-8
form of the console-role default endpoint id resolved at query time; and
when that resolution (or the id read on its result) fails, every record's
`isDefault` is `false` — given that platform endpoint ids are non-empty. -/
theorem listDevices_isDefault_exact_equality (env : ListEnv)
    (recs : List JsDevice) (h : ListDevices env = .value recs) :
    (GetDefaultAudioPlaybackDevice env.defEnv = true →
       env.defEnv.getIdOk = true →
       ∀ r ∈ recs, r.isDefault = (r.id == WStringToUtf8 env.defEnv.defaultId)) ∧
    ((GetDefaultAudioPlaybackDevice env.defEnv = false ∨
        env.defEnv.getIdOk = false) →
       (∀ d ∈ env.enumEnv.devices, d.id ≠ []) →
       ∀ r ∈ recs, r.isDefault = false) := by
  rcases ListDevices_value_inv h with ⟨hcom, devices, henum, hrecs⟩
  rcases listOutputDevices_ok_inv henum with ⟨-, -, -, -, hdev⟩
  constructor
  · intro hres hgid r hr
    rw [hrecs] at hr
    rcases List.mem_map.mp hr with ⟨d, hd, rfl⟩
    simp [mkJsDevice, hres, hgid]
  · intro hfail hne r hr
    have hcond : (GetDefaultAudioPlaybackDevice env.defEnv &&
        env.defEnv.getIdOk) = false := by
      rcases hfail with hf | hf <;> simp [hf]
    rw [hrecs] at hr
    rcases List.mem_map.mp hr with ⟨d, hd, rfl⟩
    rw [hdev] at hd
    rcases mem_enumLoop hd with ⟨e, he, hid, -⟩
    have hidne : d.id ≠ [] := by
      rw [hid]
      exact hne e he
    have hutf : WStringToUtf8 d.id ≠ [] := by
      intro hc
      exact hidne ((WStringToUtf8_eq_nil_iff d.id).mp hc)
    have hc0 : WStringToUtf8
        (if (GetDefaultAudioPlaybackDevice env.defEnv &&
          env.defEnv.getIdOk) = true then env.defEnv.defaultId else []) = [] := by
      rw [hcond]
      simp [WStringToUtf8]
    simp only [mkJsDevice]
    rw [hc0]
    exact beq_eq_false_iff_ne.mpr hutf

/-- Witness for C8 at concrete states: in a system whose default id is the
sole device's id, the record's flag equals the exact id comparison; in a
system where default resolution fails, the record's flag is `false`. -/
theorem listDevices_isDefault_exact_equality_witness :
    (({ name := [78], id := [66], isDefault := true } : JsDevice).isDefault =
      (({ name := [78], id := [66], isDefault := true } : JsDevice).id ==
        WStringToUtf8 [66])) ∧
    (({ name := [78], id := [66], isDefault := false } : JsDevice).isDefault
      = false) :=
  ⟨(listDevices_isDefault_exact_equality
      ⟨true, ⟨true, true, true, [66]⟩,
       ⟨true, true, true, [⟨true, true, true, true, [66], [78]⟩]⟩⟩
      [⟨[78], [66], true⟩] (by rfl)).1 rfl rfl _ (by decide),
   (listDevices_isDefault_exact_equality
      ⟨true, ⟨false, true, true, [66]⟩,
       ⟨true, true, true, [⟨true, true, true, true, [66], [78]⟩]⟩⟩
      [⟨[78], [66], false⟩] (by rfl)).2 (Or.inl rfl) (by decide) _ (by decide)⟩

/-- C4 counterexample: the error kind used for raised runtime/platform
failures is NOT distinct from the usage-error kind, and
policy-object-creation failure is not raised at all.  Concretely:
COM-initialization failure in `ListDevices` is raised as `Napi::TypeError`
— the very kind `MuteDeviceById` uses for a wrong-type argument — and
`SetDefaultDevice` with a failing policy-object creation returns the value
`false` instead of raising. -/
theorem error_kind_collision_counterexample :
    ListDevices ⟨false, ⟨true, true, true, []⟩, ⟨true, true, true, []⟩⟩ =
      .thrown .typeError "Failed to initialize COM." ∧
    (MuteDeviceById ⟨true, true, fun _ => none⟩ [JsVal.num 0]).1 =
      .thrown .typeError "Expected arguments: (string deviceId, boolean mute)" ∧
    (SetDefaultDevice
      ⟨true, ⟨true, true, true, [⟨true, true, true, true, [67], [83]⟩]⟩,
       ⟨false, fun _ _ => true⟩⟩ [JsVal.str [67]]).1 = .value false :=
  ⟨rfl, rfl, rfl⟩

/-- C4 (amended): wrong argument count or type at the boundary raises a
synchronous `Napi::TypeError` in every argument-taking operation
(`SetDefaultDevice` checks only that a first string argument is present).
But the kinds are not cleanly separated: `ListDevices` (and
`SetDefaultDevice`) rethrow environment failures such as COM
initialization with the same `TypeError` kind, while `MuteDeviceById` and
`SetDefaultPlaybackMute` raise them as a plain `Napi::Error`; and
policy-object-creation failure is reported as a boolean `false` result,
not raised. -/
theorem boundary_error_convention :
    (∀ (env : MuteEnv) (args : List JsVal),
       (∀ s b, args ≠ [JsVal.str s, JsVal.boolean b]) →
       (MuteDeviceById env args).1 =
         .thrown .typeError "Expected arguments: (string deviceId, boolean mute)") ∧
    (∀ (env : DefMuteEnv) (args : List JsVal),
       (∀ b, args ≠ [JsVal.boolean b]) →
       SetDefaultPlaybackMute env args =
         .thrown .typeError "Expected one boolean argument (true=mute, false=unmute)") ∧
    (∀ (env : SetDefaultEnv) (args : List JsVal),
       (∀ s rest, args ≠ JsVal.str s :: rest) →
       (SetDefaultDevice env args).1 =
         .thrown .typeError "Device ID string expected") ∧
    (∀ env : ListEnv, env.comInitOk = false →
       ListDevices env = .thrown .typeError "Failed to initialize COM.") ∧
    (∀ (env : MuteEnv) (s : List Nat) (b : Bool), env.comInitOk = false →
       (MuteDeviceById env [JsVal.str s, JsVal.boolean b]).1 =
         .thrown .genericError "Failed to mute device - system error occurred") ∧
    (∀ (env : DefMuteEnv) (b : Bool), env.comInitOk = false →
       SetDefaultPlaybackMute env [JsVal.boolean b] =
         .thrown .genericError "Failed to set mute state for default playback device") ∧
    (∀ (env : SetDefaultEnv) (idUtf8 : List Nat) (rest : List JsVal)
       (devices : List AudioDevice),
       env.comInitOk = true → listOutputDevices env.enumEnv = .ok devices →
       (devices.any fun dev => dev.id == bytewiseWiden idUtf8) = true →
       env.policyEnv.policyCreateOk = false →
       (SetDefaultDevice env (JsVal.str idUtf8 :: rest)).1 = .value false) := by
  refine ⟨?_, ?_, ?_, ?_, ?_, ?_, ?_⟩
  · intro env args h
    cases args with
    | nil => rfl
    | cons a args =>
      cases args with
      | nil => cases a <;> rfl
      | cons b args =>
        cases args with
        | cons c2 args => cases a <;> cases b <;> cases c2 <;> rfl
        | nil =>
          cases a with
          | str s =>
            cases b with
            | boolean bb => exact absurd rfl (h s bb)
            | str s2 => rfl
            | num n => rfl
            | other => rfl
          | boolean ab => cases b <;> rfl
          | num an => cases b <;> rfl
          | other => cases b <;> rfl
  · intro env args h
    cases args with
    | nil => rfl
    | cons a args =>
      cases args with
      | nil =>
        cases a with
        | boolean b2 => exact absurd rfl (h b2)
        | str s => rfl
        | num n => rfl
        | other => rfl
      | cons b args => cases a <;> cases b <;> rfl
  · intro env args h
    cases args with
    | nil => rfl
    | cons a rest =>
      cases a with
      | str s => exact absurd rfl (h s rest)
      | boolean b => rfl
      | num n => rfl
      | other => rfl
  · intro env h
    simp [ListDevices, h]
  · intro env s b h
    simp [MuteDeviceById, h]
  · intro env b h
    simp [SetDefaultPlaybackMute, h]
  · intro env idUtf8 rest devices hcom henum hmem hpol
    simp [SetDefaultDevice, hcom, henum, hmem, setDefaultOutputDevice, hpol]

/-- Witness for the amended C4 at concrete states, one per conjunct. -/
theorem boundary_error_convention_witness :
    (MuteDeviceById ⟨true, true, fun _ => none⟩ [JsVal.num 1]).1 =
      .thrown .typeError "Expected arguments: (string deviceId, boolean mute)" ∧
    SetDefaultPlaybackMute ⟨true, ⟨true, true, true, []⟩, true, true⟩ [] =
      .thrown .typeError "Expected one boolean argument (true=mute, false=unmute)" ∧
    (SetDefaultDevice ⟨true, ⟨true, true, true, []⟩,
        ⟨true, fun _ _ => true⟩⟩ [JsVal.num 2]).1 =
      .thrown .typeError "Device ID string expected" ∧
    ListDevices ⟨false, ⟨true, true, true, [65]⟩, ⟨true, true, true, []⟩⟩ =
      .thrown .typeError "Failed to initialize COM." ∧
    (MuteDeviceById ⟨false, true, fun _ => none⟩
        [JsVal.str [65], JsVal.boolean true]).1 =
      .thrown .genericError "Failed to mute device - system error occurred" ∧
    SetDefaultPlaybackMute ⟨false, ⟨true, true, true, []⟩, true, true⟩
        [JsVal.boolean true] =
      .thrown .genericError "Failed to set mute state for default playback device" ∧
    (SetDefaultDevice
      ⟨true, ⟨true, true, true, [⟨true, true, true, true, [68], [83]⟩]⟩,
       ⟨false, fun _ _ => true⟩⟩ [JsVal.str [68]]).1 = .value false :=
  ⟨boundary_error_convention.1 _ [JsVal.num 1]
      (by intro s b hc; simp at hc),
   boundary_error_convention.2.1 _ [] (by intro b hc; simp at hc),
   boundary_error_convention.2.2.1 _ [JsVal.num 2]
      (by intro s rest hc; simp at hc),
   boundary_error_convention.2.2.2.1 _ rfl,
   boundary_error_convention.2.2.2.2.1 _ [65] true rfl,
   boundary_error_convention.2.2.2.2.2.1 _ true rfl,
   boundary_error_convention.2.2.2.2.2.2 _ [68] [] [⟨[68], [83]⟩]
      rfl rfl (by decide) rfl⟩

end AudioAddon
